import Mathlib

/-!
Shallow embedding of `opyn/wallet.py` from the Paradigmco-sdk repository.

The repository ships `wallet.py`; the helper modules it imports
(`opyn.utils`, `opyn.erc20`, `opyn.definitions`, `opyn.encode`) are part of
the same repository but are not available here, so the definitions taken
from them are modelled from the specification and marked as such in their
doc comments.  External libraries (`eth_keys` ECDSA, the EIP-712 hash) are
modelled as explicit function parameters: the wallet code only forwards
values to them, and every theorem below quantifies over those parameters.

Python dynamic typing is modelled with `PyVal` for untyped values and
`Except PyError` for exception outcomes.  Python `/` on large integers is
modelled as exact rational division.
-/

namespace OpynWallet

/-- An untyped Python value, as it appears in dicts and JSON responses. -/
inductive PyVal where
  | str (s : String)
  | nat (n : Nat)
  deriving DecidableEq

/-- A raised Python exception, identified by its class and message. -/
inductive PyError where
  | typeError (msg : String)
  | valueError (msg : String)
  | attributeError (msg : String)
  deriving DecidableEq

/-- `Domain` dataclass (from `opyn.definitions`; field set and order per the
spec: name, version, chainId, verifyingContract, salt, all optional). -/
structure Domain where
  name : Option String
  version : Option String
  chainId : Option Nat
  verifyingContract : Option String
  salt : Option String
  deriving DecidableEq

/-- `MessageToSign` dataclass (from `opyn.definitions`; fields per the spec
and `MESSAGE_TYPES` in `wallet.py`). -/
structure MessageToSign where
  bidId : Nat
  trader : String
  token : String
  amount : Nat
  nonce : Nat
  deriving DecidableEq

/-- `OrderData` dataclass (from `opyn.definitions`; seven fields in the
order given by the spec: bidId, trader, token, amount, v, r, s). -/
structure OrderData where
  bidId : Nat
  trader : String
  token : String
  amount : Nat
  v : Nat
  r : String
  s : String
  deriving DecidableEq

/-- The raw ECDSA signature returned by `eth_keys` `sign_msg_hash`:
recovery id `v` (0 or 1) and the integers `r`, `s`. -/
structure RawSig where
  v : Nat
  r : Nat
  s : Nat
  deriving DecidableEq

/-- The `{v, r, s}` dict returned by `Wallet.sign_msg`. -/
structure Signature where
  v : Nat
  r : String
  s : String
  deriving DecidableEq

/-- `ContractConfig` dataclass (from `opyn.definitions`): address, rpc_uri,
chain_id. -/
structure ContractConfig where
  address : String
  rpc_uri : String
  chain_id : Nat
  deriving DecidableEq

/-- The `Wallet` object state after `__init__`: the four constructor
attributes plus `signer`, which is set (to the key material) exactly when a
private key was supplied. -/
structure Wallet where
  private_key : Option String
  public_key : Option String
  relayer_url : Option String
  relayer_token : Option String
  signer : Option String
  deriving DecidableEq

/-- `MESSAGE_TYPES` constant from `wallet.py`: the `OpynRfq` type with its
five fields in fixed order. -/
def MESSAGE_TYPES : List (String × List (String × String)) :=
  [("OpynRfq",
    [("bidId", "uint256"), ("trader", "address"), ("token", "address"),
     ("amount", "uint256"), ("nonce", "uint256")])]

/-- `MIN_ALLOWANCE` constant from `wallet.py`. -/
def MIN_ALLOWANCE : Nat := 100000000

/-- The hex digit character for a value below 16, lowercase as Python
`hex` produces. -/
def toHexChar (n : Nat) : Char :=
  if n < 10 then Char.ofNat (48 + n) else Char.ofNat (87 + n)

/-- The minimal lowercase hex digit list of a natural number, most
significant digit first (the digits of Python `hex(n)` after `0x`). -/
def hexDigitsGo (n : Nat) : List Char :=
  if h : n < 16 then [toHexChar n]
  else hexDigitsGo (n / 16) ++ [toHexChar (n % 16)]
decreasing_by exact Nat.div_lt_self (by omega) (by omega)

/-- Python `hex(n)` for a nonnegative integer: `0x` followed by the minimal
lowercase digits. -/
def pyHex (n : Nat) : String := ⟨'0' :: 'x' :: hexDigitsGo n⟩

/-- Modelled from the spec: `hex_zero_pad` from `opyn.utils` (module not
under src/).  Per the spec, `r` and `s` are rendered as 0x-prefixed
hexadecimal left-zero-padded to exactly `length` bytes (2·`length` hex
digits); the input is a `0x`-prefixed hex string whose digits fit. -/
def hex_zero_pad (value : String) (length : Nat) : String :=
  let digits := value.data.drop 2
  ⟨'0' :: 'x' :: (List.replicate (2 * length - digits.length) '0' ++ digits)⟩

/-- `Wallet.__init__`: requires at least one of the keys; stores all four
attributes verbatim; when a private key is present builds the signer and,
only if no public key was supplied, derives `public_key` as
`get_address(signer.public_key.to_address())`.  `getAddr` models
`get_address` from `opyn.utils` and `privToAddr` models the `eth_keys`
address derivation; both are external to `wallet.py` and passed as
parameters. -/
def Wallet.init (getAddr privToAddr : String → String)
    (public_key private_key relayer_url relayer_token : Option String) :
    Except PyError Wallet :=
  if private_key.isNone && public_key.isNone then
    .error (.valueError "Cant instanciate a Wallet without a public or private key")
  else
    match private_key with
    | none =>
        .ok ⟨none, public_key, relayer_url, relayer_token, none⟩
    | some pk =>
        match public_key with
        | some pub => .ok ⟨some pk, some pub, relayer_url, relayer_token, some pk⟩
        | none =>
            .ok ⟨some pk, some (getAddr (privToAddr pk)), relayer_url, relayer_token, some pk⟩

/-- `Wallet.sign_msg`: calls `self.signer.sign_msg_hash` — when no signer
attribute was set (no private key), Python raises `AttributeError`; then
returns `v + 27` and the two zero-padded hex strings.  `ecdsa` models the
`eth_keys` signing backend, mapping key material and message hash to the
raw signature. -/
def Wallet.sign_msg (ecdsa : String → String → RawSig) (w : Wallet)
    (messageHash : String) : Except PyError Signature :=
  match w.signer with
  | none => .error (.attributeError "Wallet object has no attribute signer")
  | some sk =>
      let signature := ecdsa sk messageHash
      .ok { v := signature.v + 27,
            r := hex_zero_pad (pyHex signature.r) 32,
            s := hex_zero_pad (pyHex signature.s) 32 }

/-- `asdict(domain)`: the five fields in dataclass declaration order, each
paired with its (possibly absent) value. -/
def Domain.asdict (d : Domain) : List (String × Option PyVal) :=
  [("name", d.name.map PyVal.str), ("version", d.version.map PyVal.str),
   ("chainId", d.chainId.map PyVal.nat),
   ("verifyingContract", d.verifyingContract.map PyVal.str),
   ("salt", d.salt.map PyVal.str)]

/-- The dict comprehension of `wallet.py` line 103:
`{k: v for k, v in asdict(domain).items() if v is not None}`. -/
def Domain.domainDict (d : Domain) : List (String × PyVal) :=
  d.asdict.filterMap (fun p => p.2.map (fun v => (p.1, v)))

/-- The dynamically typed `domain` argument of `_sign_type_data_v4`:
either an actual `Domain` instance or any other Python value. -/
inductive DomainArg where
  | domain (d : Domain)
  | other (v : PyVal)
  deriving DecidableEq

/-- The dynamically typed `message_to_sign` argument of `sign_order_data`. -/
inductive MessageArg where
  | msg (m : MessageToSign)
  | other (v : PyVal)
  deriving DecidableEq

/-- The type of the external `TypedDataEncoder._hash` (from `opyn.encode`,
not under src/): domain dict, types, value dict to digest string. -/
abbrev HashFn :=
  List (String × PyVal) → List (String × List (String × String)) →
    List (String × PyVal) → String

/-- `Wallet._sign_type_data_v4`: raises `TypeError` unless `domain` is a
`Domain` instance, filters out the absent fields, and signs the
`TypedDataEncoder._hash` digest of the filtered domain, types and value. -/
def Wallet.sign_type_data_v4 (ecdsa : String → String → RawSig)
    (hashFn : HashFn) (w : Wallet) (domainArg : DomainArg)
    (types : List (String × List (String × String)))
    (value : List (String × PyVal)) : Except PyError Signature :=
  match domainArg with
  | .other _ => .error (.typeError "Invalid domain parameters")
  | .domain d => w.sign_msg ecdsa (hashFn d.domainDict types value)

/-- `asdict(message_to_sign)`: the five fields in dataclass order. -/
def MessageToSign.asdict (m : MessageToSign) : List (String × PyVal) :=
  [("bidId", PyVal.nat m.bidId), ("trader", PyVal.str m.trader),
   ("token", PyVal.str m.token), ("amount", PyVal.nat m.amount),
   ("nonce", PyVal.nat m.nonce)]

/-- `Wallet.sign_order_data`: checks, in source order, that the message is
a `MessageToSign` instance (`TypeError`), that a private key is present
(`ValueError`), and that `get_address(message_to_sign.trader)` equals the
stored `public_key` (`ValueError` on mismatch); then signs via
`_sign_type_data_v4` and assembles the `OrderData` from the original
fields plus the signature components. -/
def Wallet.sign_order_data (getAddr : String → String)
    (ecdsa : String → String → RawSig) (hashFn : HashFn) (w : Wallet)
    (domainArg : DomainArg) (msgArg : MessageArg) : Except PyError OrderData :=
  match msgArg with
  | .other _ => .error (.typeError "Invalid message_to_sign(MessageToSign)")
  | .msg m =>
      if w.private_key.isNone then
        .error (.valueError "Unable to sign. Create the Wallet with the private key argument.")
      else
        let signerWallet := getAddr m.trader
        if w.public_key ≠ some signerWallet then
          .error (.valueError "Signer wallet address mismatch")
        else
          match w.sign_type_data_v4 ecdsa hashFn domainArg MESSAGE_TYPES m.asdict with
          | .error e => .error e
          | .ok signature =>
              .ok { bidId := m.bidId, trader := m.trader, token := m.token,
                    amount := m.amount, v := signature.v, r := signature.r,
                    s := signature.s }

/-- Modelled from the spec: `ERC20Contract` (from `opyn.erc20`, not under
src/).  `get_allowance(owner, spender)` reads the raw integer allowance;
`contractDecimals` is the integer returned by the token's `decimals()`
call.  Per the spec the allowance comparison realizes
`rawAllowance / 10^decimals` semantics, so the contract object's
`decimals` attribute used as the divisor is `10 ^ decimals()`. -/
structure ERC20Contract where
  config : ContractConfig
  get_allowance : String → String → Nat
  contractDecimals : Nat

/-- The `decimals` attribute of the contract object: the human-unit
divisor `10 ^ decimals()` (see `ERC20Contract`). -/
def ERC20Contract.decimals (t : ERC20Contract) : Nat := 10 ^ t.contractDecimals

/-- `Wallet.verify_allowance`: builds the token config from the token
address and the settlement config's rpc/chain, reads the raw allowance of
`(public_key, settlement address)`, divides by the token's `decimals`
attribute (Python true division, modelled as exact rational division) and
compares strictly against `MIN_ALLOWANCE`.  `mkToken` models the
`ERC20Contract` constructor. -/
def Wallet.verify_allowance (mkToken : ContractConfig → ERC20Contract)
    (w : Wallet) (settlement_config : ContractConfig)
    (token_address : String) : Bool :=
  let token_config : ContractConfig :=
    ⟨token_address, settlement_config.rpc_uri, settlement_config.chain_id⟩
  let token := mkToken token_config
  let allowance : ℚ :=
    (token.get_allowance (w.public_key.getD "") settlement_config.address : ℚ)
      / (token.decimals : ℚ)
  decide (allowance > (MIN_ALLOWANCE : ℚ))

/-- The field names of the `OrderData` dataclass in declaration order
(spec §3: bidId, trader, token, amount, v, r, s). -/
def orderDataFields : List String :=
  ["bidId", "trader", "token", "amount", "v", "r", "s"]

/-- The relayer bid response fields accessed by `settle_trade` (untyped
JSON values). -/
structure RelayerBidResponse where
  bidId : PyVal
  trader : PyVal
  amount : PyVal
  v : PyVal
  r : PyVal
  s : PyVal

/-- The six positional arguments `settle_trade` (wallet.py lines 214-221)
passes to the `OrderData` constructor for the seller order:
`response.bidId, response.trader, response.amount, response.v,
response.r, response.s` — no value for `token`. -/
def settleSellerArgs (resp : RelayerBidResponse) : List PyVal :=
  [resp.bidId, resp.trader, resp.amount, resp.v, resp.r, resp.s]

/-- Positional binding of constructor arguments to dataclass fields:
the i-th argument is bound to the i-th field. -/
def positionalBind (fields : List String) (args : List PyVal) :
    List (String × PyVal) :=
  fields.zip args

/-- Whether an operation outcome is a success (no exception raised). -/
def isOkB {α : Type} : Except PyError α → Bool
  | .ok _ => true
  | .error _ => false

/-- Lowercases the hex letters of an address string, giving the
all-lowercase rendering of the same account. -/
def lowerHexChar (c : Char) : Char :=
  if c = 'A' then 'a' else if c = 'B' then 'b' else if c = 'C' then 'c'
  else if c = 'D' then 'd' else if c = 'E' then 'e' else if c = 'F' then 'f'
  else c

/-- The all-lowercase rendering of a hex address string. -/
def lowerHex (s : String) : String := ⟨s.data.map lowerHexChar⟩

/-! ### Helper lemmas -/

theorem hexDigitsGo_length_pos (n : Nat) : 1 ≤ (hexDigitsGo n).length := by
  rw [hexDigitsGo]
  split
  · simp
  · simp

theorem hexDigitsGo_length_le :
    ∀ n k, 1 ≤ k → n < 16 ^ k → (hexDigitsGo n).length ≤ k := by
  intro n
  induction n using Nat.strong_induction_on with
  | _ n ih =>
    intro k hk hn
    rw [hexDigitsGo]
    split
    · simpa using hk
    · rename_i h
      have h16 : 16 ≤ n := Nat.not_lt.mp h
      have hk2 : 2 ≤ k := by
        rcases Nat.lt_or_ge k 2 with hlt | hge
        · exfalso
          have hk1 : k = 1 := by omega
          rw [hk1] at hn
          simp at hn
          omega
        · exact hge
      have hpow : 16 ^ (k - 1) * 16 = 16 ^ k := by
        rw [← pow_succ]
        congr 1
        omega
      have hdiv : n / 16 < 16 ^ (k - 1) :=
        Nat.div_lt_of_lt_mul (by omega)
      have hrec := ih (n / 16) (Nat.div_lt_self (by omega) (by omega))
        (k - 1) (by omega) hdiv
      simp only [List.length_append, List.length_cons, List.length_nil]
      omega

theorem hex_zero_pad_pyHex_spec (n : Nat) (hn : n < 2 ^ 256) :
    (hex_zero_pad (pyHex n) 32).length = 66 ∧
      (hex_zero_pad (pyHex n) 32).data =
        '0' :: 'x' ::
          (List.replicate (64 - (hexDigitsGo n).length) '0' ++ hexDigitsGo n) := by
  have h16 : n < 16 ^ 64 := by
    have : (16 : Nat) ^ 64 = 2 ^ 256 := by norm_num
    omega
  have hle : (hexDigitsGo n).length ≤ 64 := hexDigitsGo_length_le n 64 (by omega) h16
  have hdata : (pyHex n).data.drop 2 = hexDigitsGo n := rfl
  constructor
  · show ('0' :: 'x' ::
      (List.replicate (2 * 32 - ((pyHex n).data.drop 2).length) '0' ++
        (pyHex n).data.drop 2)).length = 66
    rw [hdata]
    simp only [List.length_cons, List.length_append, List.length_replicate]
    omega
  · show ('0' :: 'x' ::
      (List.replicate (2 * 32 - ((pyHex n).data.drop 2).length) '0' ++
        (pyHex n).data.drop 2)) = _
    rw [hdata]

/-! ### Concrete instances of the external collaborators, used by the
witness theorems -/

/-- A concrete ECDSA backend for witnesses: recovery id 1, r = 5, s = 7. -/
def ecdsaC : String → String → RawSig := fun _ _ => ⟨1, 5, 7⟩

/-- A concrete address normalization for witnesses: the identity map. -/
def getAddrC : String → String := fun s => s

/-- A concrete address normalization for witnesses that checksums the toy
address `0xab12` to mixed case `0xAB12` and fixes everything else. -/
def getAddrCk : String → String := fun s => if s = "0xab12" then "0xAB12" else s

/-- A concrete key-to-address derivation for witnesses. -/
def privToAddrC : String → String := fun _ => "0xFEED"

/-- A concrete EIP-712 hash backend for witnesses. -/
def hashFnC : HashFn := fun _ _ _ => "0x1234"

/-- A concrete wallet holding a private key, with address `0xAAA1`. -/
def walletC : Wallet := ⟨some "0x01", some "0xAAA1", none, none, some "0x01"⟩

/-- A concrete unsigned order whose trader is the wallet's own address. -/
def msgC : MessageToSign := ⟨7, "0xAAA1", "0xTOK", 250, 3⟩

/-- A concrete unsigned order whose trader is a different address. -/
def msgOtherC : MessageToSign := ⟨7, "0xBBB2", "0xTOK", 250, 3⟩

/-- A concrete domain with every field present. -/
def domainC : Domain := ⟨some "OPYN RFQ", some "1", some 1, some "0xCTR", none⟩

/-! ### Claim theorems -/

/-- Claim C1: for every wallet holding a private key and every unsigned
order, `sign_order_data` normalizes the declared trader address with
`get_address` and, when it differs from the wallet's own stored address,
fails with the signer-mismatch `ValueError` and produces no signature. -/
theorem C1_signer_mismatch_aborts (getAddr : String → String)
    (ecdsa : String → String → RawSig) (hashFn : HashFn) (w : Wallet)
    (domainArg : DomainArg) (m : MessageToSign)
    (hpk : w.private_key.isSome = true)
    (hmm : w.public_key ≠ some (getAddr m.trader)) :
    w.sign_order_data getAddr ecdsa hashFn domainArg (.msg m) =
      .error (.valueError "Signer wallet address mismatch") := by
  unfold Wallet.sign_order_data
  have h1 : w.private_key.isNone = false := by
    cases h : w.private_key
    · rw [h] at hpk
      simp at hpk
    · rfl
  simp only [h1, Bool.false_eq_true, if_false, ne_eq, hmm, not_false_iff, if_true]

theorem C1_witness :
    walletC.private_key.isSome = true ∧
      walletC.public_key ≠ some (getAddrC msgOtherC.trader) ∧
      walletC.sign_order_data getAddrC ecdsaC hashFnC (.domain domainC)
          (.msg msgOtherC) =
        .error (.valueError "Signer wallet address mismatch") :=
  ⟨by decide, by decide,
    C1_signer_mismatch_aborts getAddrC ecdsaC hashFnC walletC (.domain domainC)
      msgOtherC (by decide) (by decide)⟩

/-- Claim C5: every signature produced by `sign_msg` carries
`v = raw recovery id + 27`; since the raw id is 0 or 1, `v ∈ {27, 28}`. -/
theorem C5_v_offset_27 (ecdsa : String → String → RawSig) (w : Wallet)
    (messageHash : String) (sk : String) (hs : w.signer = some sk)
    (hv : (ecdsa sk messageHash).v = 0 ∨ (ecdsa sk messageHash).v = 1) :
    ∃ sig, w.sign_msg ecdsa messageHash = .ok sig ∧
      sig.v = (ecdsa sk messageHash).v + 27 ∧ (sig.v = 27 ∨ sig.v = 28) := by
  refine ⟨_, by rw [Wallet.sign_msg, hs], rfl, ?_⟩
  rcases hv with h | h <;> simp [h]

theorem C5_witness :
    walletC.signer = some "0x01" ∧
      ((ecdsaC "0x01" "0xfeed").v = 0 ∨ (ecdsaC "0x01" "0xfeed").v = 1) ∧
      ∃ sig, walletC.sign_msg ecdsaC "0xfeed" = .ok sig ∧
        sig.v = (ecdsaC "0x01" "0xfeed").v + 27 ∧ (sig.v = 27 ∨ sig.v = 28) :=
  ⟨by decide, by decide,
    C5_v_offset_27 ecdsaC walletC "0xfeed" "0x01" (by decide) (by decide)⟩

/-- Claim C6: every signature produced by `sign_msg` renders `r` and `s`
as 0x-prefixed, left-zero-padded hex strings of exactly 66 characters,
whatever the magnitude of the underlying 256-bit integers. -/
theorem C6_r_s_padded_66 (ecdsa : String → String → RawSig) (w : Wallet)
    (messageHash : String) (sk : String) (hs : w.signer = some sk)
    (hr : (ecdsa sk messageHash).r < 2 ^ 256)
    (hsb : (ecdsa sk messageHash).s < 2 ^ 256) :
    ∃ sig, w.sign_msg ecdsa messageHash = .ok sig ∧
      sig.r.length = 66 ∧ sig.s.length = 66 ∧
      sig.r.data = '0' :: 'x' ::
        (List.replicate (64 - (hexDigitsGo (ecdsa sk messageHash).r).length) '0' ++
          hexDigitsGo (ecdsa sk messageHash).r) ∧
      sig.s.data = '0' :: 'x' ::
        (List.replicate (64 - (hexDigitsGo (ecdsa sk messageHash).s).length) '0' ++
          hexDigitsGo (ecdsa sk messageHash).s) := by
  obtain ⟨hrl, hrd⟩ := hex_zero_pad_pyHex_spec (ecdsa sk messageHash).r hr
  obtain ⟨hsl, hsd⟩ := hex_zero_pad_pyHex_spec (ecdsa sk messageHash).s hsb
  exact ⟨_, by rw [Wallet.sign_msg, hs], hrl, hsl, hrd, hsd⟩

theorem C6_witness :
    walletC.signer = some "0x01" ∧
      (ecdsaC "0x01" "0xfeed").r < 2 ^ 256 ∧
      (ecdsaC "0x01" "0xfeed").s < 2 ^ 256 ∧
      ∃ sig, walletC.sign_msg ecdsaC "0xfeed" = .ok sig ∧
        sig.r.length = 66 ∧ sig.s.length = 66 ∧
        sig.r.data = '0' :: 'x' ::
          (List.replicate (64 - (hexDigitsGo (ecdsaC "0x01" "0xfeed").r).length) '0' ++
            hexDigitsGo (ecdsaC "0x01" "0xfeed").r) ∧
        sig.s.data = '0' :: 'x' ::
          (List.replicate (64 - (hexDigitsGo (ecdsaC "0x01" "0xfeed").s).length) '0' ++
            hexDigitsGo (ecdsaC "0x01" "0xfeed").s) :=
  ⟨by decide, by norm_num [ecdsaC], by norm_num [ecdsaC],
    C6_r_s_padded_66 ecdsaC walletC "0xfeed" "0x01" (by decide)
      (by norm_num [ecdsaC]) (by norm_num [ecdsaC])⟩

/-- Claim C7: only the present fields of a `Domain` appear in the dict
handed to the EIP-712 hashing step — each present field appears under its
own name with its value, an absent field's name does not appear at all,
no other keys occur, and `_sign_type_data_v4` hands exactly this filtered
dict to the hash function. -/
theorem C7_domain_only_present_fields (d : Domain) :
    d.domainDict.lookup "name" = d.name.map PyVal.str ∧
    d.domainDict.lookup "version" = d.version.map PyVal.str ∧
    d.domainDict.lookup "chainId" = d.chainId.map PyVal.nat ∧
    d.domainDict.lookup "verifyingContract" = d.verifyingContract.map PyVal.str ∧
    d.domainDict.lookup "salt" = d.salt.map PyVal.str ∧
    (∀ kv, kv ∈ d.domainDict →
      kv.1 ∈ (["name", "version", "chainId", "verifyingContract", "salt"] :
        List String)) ∧
    (∀ ecdsa hashFn w types value,
      Wallet.sign_type_data_v4 ecdsa hashFn w (.domain d) types value =
        w.sign_msg ecdsa (hashFn d.domainDict types value)) := by
  obtain ⟨n, v, c, vc, s⟩ := d
  have hmem : ∀ kv, kv ∈ (Domain.mk n v c vc s).domainDict →
      kv.1 ∈ (["name", "version", "chainId", "verifyingContract", "salt"] :
        List String) := by
    intro kv hkv
    rcases List.mem_filterMap.mp hkv with ⟨p, hp, hf⟩
    have hk : kv.1 = p.1 := by
      cases h2 : p.2 with
      | none => rw [h2] at hf; simp at hf
      | some w =>
          rw [h2] at hf
          have h3 : (p.1, w) = kv := Option.some.inj hf
          rw [← h3]
    rw [hk]
    simp only [Domain.asdict, List.mem_cons] at hp
    rcases hp with h | h | h | h | h | h
    · rw [h]; simp
    · rw [h]; simp
    · rw [h]; simp
    · rw [h]; simp
    · rw [h]; simp
    · exact absurd h (by simp)
  refine ⟨?_, ?_, ?_, ?_, ?_, hmem, fun _ _ _ _ _ => rfl⟩ <;>
    (cases n <;> cases v <;> cases c <;> cases vc <;> cases s <;> rfl)

theorem C7_witness :
    (Domain.mk (some "OPYN") none (some 1) none none).domainDict.lookup "name" =
        (Domain.mk (some "OPYN") none (some 1) none none).name.map PyVal.str ∧
      (Domain.mk (some "OPYN") none (some 1) none none).domainDict.lookup "version" =
        (Domain.mk (some "OPYN") none (some 1) none none).version.map PyVal.str ∧
      (Domain.mk (some "OPYN") none (some 1) none none).domainDict.lookup "chainId" =
        (Domain.mk (some "OPYN") none (some 1) none none).chainId.map PyVal.nat ∧
      (Domain.mk (some "OPYN") none (some 1) none none).domainDict.lookup "verifyingContract" =
        (Domain.mk (some "OPYN") none (some 1) none none).verifyingContract.map PyVal.str ∧
      (Domain.mk (some "OPYN") none (some 1) none none).domainDict.lookup "salt" =
        (Domain.mk (some "OPYN") none (some 1) none none).salt.map PyVal.str ∧
      (∀ kv, kv ∈ (Domain.mk (some "OPYN") none (some 1) none none).domainDict →
        kv.1 ∈ (["name", "version", "chainId", "verifyingContract", "salt"] :
          List String)) ∧
      (∀ ecdsa hashFn w types value,
        Wallet.sign_type_data_v4 ecdsa hashFn w
            (.domain (Domain.mk (some "OPYN") none (some 1) none none)) types value =
          w.sign_msg ecdsa
            (hashFn (Domain.mk (some "OPYN") none (some 1) none none).domainDict
              types value)) :=
  C7_domain_only_present_fields (Domain.mk (some "OPYN") none (some 1) none none)

/-- Claim C8: every successful `sign_order_data` call returns an
`OrderData` whose `bidId`, `trader`, `token`, `amount` equal the input
order's fields and whose `v`, `r`, `s` are exactly the components of the
signature `sign_msg` computes over the EIP-712 digest of that order. -/
theorem C8_signed_order_fields (getAddr : String → String)
    (ecdsa : String → String → RawSig) (hashFn : HashFn) (w : Wallet)
    (domainArg : DomainArg) (m : MessageToSign) (od : OrderData)
    (hok : w.sign_order_data getAddr ecdsa hashFn domainArg (.msg m) = .ok od) :
    od.bidId = m.bidId ∧ od.trader = m.trader ∧ od.token = m.token ∧
      od.amount = m.amount ∧
      ∃ d, domainArg = .domain d ∧
        w.sign_msg ecdsa (hashFn d.domainDict MESSAGE_TYPES m.asdict) =
          .ok ⟨od.v, od.r, od.s⟩ := by
  simp only [Wallet.sign_order_data] at hok
  by_cases h1 : w.private_key.isNone = true
  · rw [if_pos h1] at hok
    exact absurd hok (by simp)
  · rw [if_neg h1] at hok
    by_cases h2 : w.public_key ≠ some (getAddr m.trader)
    · rw [if_pos h2] at hok
      exact absurd hok (by simp)
    · rw [if_neg h2] at hok
      cases domainArg with
      | other pv =>
          simp [Wallet.sign_type_data_v4] at hok
      | domain d =>
          simp only [Wallet.sign_type_data_v4] at hok
          cases hsig : w.sign_msg ecdsa (hashFn d.domainDict MESSAGE_TYPES m.asdict) with
          | error e => rw [hsig] at hok; exact absurd hok (by simp)
          | ok sig =>
              rw [hsig] at hok
              simp only [Except.ok.injEq] at hok
              refine ⟨?_, ?_, ?_, ?_, d, rfl, ?_⟩ <;> rw [← hok] <;> try rfl
              exact hsig

theorem C8_witness :
    walletC.sign_order_data getAddrC ecdsaC hashFnC (.domain domainC)
        (.msg msgC) =
      .ok ⟨msgC.bidId, msgC.trader, msgC.token, msgC.amount, 28,
        hex_zero_pad (pyHex 5) 32, hex_zero_pad (pyHex 7) 32⟩ ∧
      ∃ d, (DomainArg.domain domainC) = .domain d ∧
        walletC.sign_msg ecdsaC (hashFnC d.domainDict MESSAGE_TYPES msgC.asdict) =
          .ok ⟨28, hex_zero_pad (pyHex 5) 32, hex_zero_pad (pyHex 7) 32⟩ := by
  have hok : walletC.sign_order_data getAddrC ecdsaC hashFnC (.domain domainC)
      (.msg msgC) =
      .ok ⟨msgC.bidId, msgC.trader, msgC.token, msgC.amount, 28,
        hex_zero_pad (pyHex 5) 32, hex_zero_pad (pyHex 7) 32⟩ := rfl
  have h := C8_signed_order_fields getAddrC ecdsaC hashFnC walletC
    (.domain domainC) msgC _ hok
  exact ⟨hok, h.2.2.2.2⟩

/-- Claim C10: `settle_trade` builds the seller order from exactly six
positional values, omitting the `token` value of the seven-field
`OrderData`; positionally the fields after `trader` each receive the
value meant for the next field (token gets the response's amount, amount
gets v, v gets r, r gets s) and `s` receives nothing. -/
theorem C10_settle_trade_field_shift (resp : RelayerBidResponse) :
    (settleSellerArgs resp).length = 6 ∧ orderDataFields.length = 7 ∧
      (positionalBind orderDataFields (settleSellerArgs resp)).lookup "bidId" =
        some resp.bidId ∧
      (positionalBind orderDataFields (settleSellerArgs resp)).lookup "trader" =
        some resp.trader ∧
      (positionalBind orderDataFields (settleSellerArgs resp)).lookup "token" =
        some resp.amount ∧
      (positionalBind orderDataFields (settleSellerArgs resp)).lookup "amount" =
        some resp.v ∧
      (positionalBind orderDataFields (settleSellerArgs resp)).lookup "v" =
        some resp.r ∧
      (positionalBind orderDataFields (settleSellerArgs resp)).lookup "r" =
        some resp.s ∧
      (positionalBind orderDataFields (settleSellerArgs resp)).lookup "s" =
        none := by
  refine ⟨rfl, rfl, ?_, ?_, ?_, ?_, ?_, ?_, ?_⟩ <;> rfl

/-- A concrete ERC20 constructor for witnesses: raw allowance
10^14 = MIN_ALLOWANCE · 10^6, decimals() = 6. -/
def erc20C : ContractConfig → ERC20Contract :=
  fun cfg => ⟨cfg, fun _ _ => 100000000000000, 6⟩

/-- Claim C2: `verify_allowance` returns true iff the raw allowance
divided by `10 ^ decimals()` strictly exceeds `MIN_ALLOWANCE`;
equivalently, iff the raw allowance exceeds `MIN_ALLOWANCE · 10^decimals`;
a raw allowance landing exactly on the threshold yields false. -/
theorem C2_verify_allowance_threshold (mkToken : ContractConfig → ERC20Contract)
    (w : Wallet) (sc : ContractConfig) (ta : String) :
    (w.verify_allowance mkToken sc ta = true ↔
        ((mkToken ⟨ta, sc.rpc_uri, sc.chain_id⟩).get_allowance
            (w.public_key.getD "") sc.address : ℚ) /
            ((10 ^ (mkToken ⟨ta, sc.rpc_uri, sc.chain_id⟩).contractDecimals : ℕ) : ℚ) >
          (MIN_ALLOWANCE : ℚ)) ∧
      (w.verify_allowance mkToken sc ta = true ↔
        (mkToken ⟨ta, sc.rpc_uri, sc.chain_id⟩).get_allowance
            (w.public_key.getD "") sc.address >
          MIN_ALLOWANCE * 10 ^ (mkToken ⟨ta, sc.rpc_uri, sc.chain_id⟩).contractDecimals) ∧
      ((mkToken ⟨ta, sc.rpc_uri, sc.chain_id⟩).get_allowance
            (w.public_key.getD "") sc.address =
          MIN_ALLOWANCE * 10 ^ (mkToken ⟨ta, sc.rpc_uri, sc.chain_id⟩).contractDecimals →
        w.verify_allowance mkToken sc ta = false) := by
  have h1 : w.verify_allowance mkToken sc ta = true ↔
      ((mkToken ⟨ta, sc.rpc_uri, sc.chain_id⟩).get_allowance
          (w.public_key.getD "") sc.address : ℚ) /
          ((10 ^ (mkToken ⟨ta, sc.rpc_uri, sc.chain_id⟩).contractDecimals : ℕ) : ℚ) >
        (MIN_ALLOWANCE : ℚ) := by
    simp only [Wallet.verify_allowance, ERC20Contract.decimals, decide_eq_true_eq]
  have hpos : (0 : ℚ) <
      ((10 ^ (mkToken ⟨ta, sc.rpc_uri, sc.chain_id⟩).contractDecimals : ℕ) : ℚ) := by
    exact_mod_cast pow_pos (by norm_num : (0 : ℕ) < 10)
      (mkToken ⟨ta, sc.rpc_uri, sc.chain_id⟩).contractDecimals
  have h2 : ((mkToken ⟨ta, sc.rpc_uri, sc.chain_id⟩).get_allowance
        (w.public_key.getD "") sc.address : ℚ) /
        ((10 ^ (mkToken ⟨ta, sc.rpc_uri, sc.chain_id⟩).contractDecimals : ℕ) : ℚ) >
        (MIN_ALLOWANCE : ℚ) ↔
      (mkToken ⟨ta, sc.rpc_uri, sc.chain_id⟩).get_allowance
          (w.public_key.getD "") sc.address >
        MIN_ALLOWANCE * 10 ^ (mkToken ⟨ta, sc.rpc_uri, sc.chain_id⟩).contractDecimals := by
    rw [gt_iff_lt, lt_div_iff hpos, gt_iff_lt]
    constructor
    · intro h
      exact_mod_cast h
    · intro h
      exact_mod_cast h
  refine ⟨h1, h1.trans h2, fun heq => ?_⟩
  cases hv : w.verify_allowance mkToken sc ta
  · rfl
  · have hlt := (h1.trans h2).mp hv
    omega

theorem C2_witness :
    walletC.verify_allowance erc20C ⟨"0xSET", "http", 1⟩ "0xTOK" = false ∧
      (erc20C ⟨"0xTOK", "http", 1⟩).get_allowance
          (walletC.public_key.getD "") "0xSET" =
        MIN_ALLOWANCE * 10 ^ (erc20C ⟨"0xTOK", "http", 1⟩).contractDecimals := by
  refine ⟨?_, by norm_num [erc20C, MIN_ALLOWANCE]⟩
  exact (C2_verify_allowance_threshold erc20C walletC ⟨"0xSET", "http", 1⟩
    "0xTOK").2.2 (by norm_num [erc20C, MIN_ALLOWANCE])

/-- Claim C3 counterexample: on a wallet constructed with only a public
address, `sign_msg` on a digest fails with an `AttributeError` (the
`signer` attribute was never created), which is not the dedicated
missing-private-key `ValueError` the claim requires. -/
theorem C3_counterexample :
    Wallet.init getAddrC privToAddrC (some "0xAAA1") none none none =
        .ok ⟨none, some "0xAAA1", none, none, none⟩ ∧
      (Wallet.mk none (some "0xAAA1") none none none).sign_msg ecdsaC "0x1234" =
        .error (.attributeError "Wallet object has no attribute signer") ∧
      (Wallet.mk none (some "0xAAA1") none none none).sign_msg ecdsaC "0x1234" ≠
        .error (.valueError "Unable to sign. Create the Wallet with the private key argument.") :=
  ⟨rfl, rfl, fun h => PyError.noConfusion (Except.error.inj h)⟩

/-- Claim C3 (amended): an identity constructed with a public address only
never produces a signature, and signing is a hard error — but the
low-level digest-signing operation `sign_msg` fails with an attribute
error (no signer was built), not the dedicated missing-private-key error;
it is the order-signing operation `sign_order_data` that fails with the
missing-private-key `ValueError`. -/
theorem C3_no_key_never_signs (getAddr privToAddr : String → String)
    (ecdsa : String → String → RawSig) (hashFn : HashFn) (pub : String)
    (ru rt : Option String) (w : Wallet) (digest : String)
    (domainArg : DomainArg) (m : MessageToSign)
    (hinit : Wallet.init getAddr privToAddr (some pub) none ru rt = .ok w) :
    w.sign_msg ecdsa digest =
        .error (.attributeError "Wallet object has no attribute signer") ∧
      w.sign_order_data getAddr ecdsa hashFn domainArg (.msg m) =
        .error (.valueError "Unable to sign. Create the Wallet with the private key argument.") ∧
      ∀ sig, w.sign_msg ecdsa digest ≠ .ok sig := by
  have hw : w = ⟨none, some pub, ru, rt, none⟩ := (Except.ok.inj hinit).symm
  subst hw
  exact ⟨rfl, rfl, fun sig h => by exact absurd h (by simp [Wallet.sign_msg])⟩

theorem C3_witness :
    Wallet.init getAddrC privToAddrC (some "0xAAA1") none none none =
        .ok ⟨none, some "0xAAA1", none, none, none⟩ ∧
      (Wallet.mk none (some "0xAAA1") none none none).sign_msg ecdsaC "0x99" =
          .error (.attributeError "Wallet object has no attribute signer") ∧
        (Wallet.mk none (some "0xAAA1") none none none).sign_order_data getAddrC
            ecdsaC hashFnC (.domain domainC) (.msg msgC) =
          .error (.valueError "Unable to sign. Create the Wallet with the private key argument.") ∧
        ∀ sig, (Wallet.mk none (some "0xAAA1") none none none).sign_msg ecdsaC "0x99" ≠
          .ok sig :=
  ⟨rfl, C3_no_key_never_signs getAddrC privToAddrC ecdsaC hashFnC "0xAAA1"
    none none _ "0x99" (.domain domainC) msgC rfl⟩

/-- Claim C4 counterexample: `sign_order_data` on a keyless wallet with a
domain value of the wrong shape fails with the missing-private-key
`ValueError`, not the invalid-domain `TypeError`: the domain is not
validated before the private-key check. -/
theorem C4_counterexample :
    (Wallet.mk none (some "0xAAA1") none none none).sign_order_data getAddrC
        ecdsaC hashFnC (.other (.nat 0)) (.msg msgC) =
      .error (.valueError "Unable to sign. Create the Wallet with the private key argument.") ∧
      (Wallet.mk none (some "0xAAA1") none none none).sign_order_data getAddrC
          ecdsaC hashFnC (.other (.nat 0)) (.msg msgC) ≠
        .error (.typeError "Invalid domain parameters") :=
  ⟨rfl, fun h => PyError.noConfusion (Except.error.inj h)⟩

/-- Claim C4 (amended): the domain's shape is validated inside the signing
step, after the message-shape, private-key and signer-mismatch checks and
before any signing: with those checks passed, a domain of the wrong shape
fails with the invalid-domain `TypeError` and no signature is produced,
while a well-shaped domain with no usable fields is not rejected at all —
signing proceeds over the empty domain dict. -/
theorem C4_domain_checked_late (getAddr : String → String)
    (ecdsa : String → String → RawSig) (hashFn : HashFn) (w : Wallet)
    (pk sk : String) (m : MessageToSign)
    (hpk : w.private_key = some pk) (hsk : w.signer = some sk)
    (hmatch : w.public_key = some (getAddr m.trader)) :
    (∀ pv, w.sign_order_data getAddr ecdsa hashFn (.other pv) (.msg m) =
        .error (.typeError "Invalid domain parameters")) ∧
      isOkB (w.sign_order_data getAddr ecdsa hashFn
        (.domain ⟨none, none, none, none, none⟩) (.msg m)) = true := by
  have h1 : w.private_key.isNone = false := by rw [hpk]; rfl
  constructor
  · intro pv
    simp [Wallet.sign_order_data, Wallet.sign_type_data_v4, h1, hmatch]
  · simp [Wallet.sign_order_data, Wallet.sign_type_data_v4, Wallet.sign_msg,
      h1, hmatch, hsk, isOkB]

theorem C4_witness :
    (∀ pv, walletC.sign_order_data getAddrC ecdsaC hashFnC (.other pv)
        (.msg msgC) = .error (.typeError "Invalid domain parameters")) ∧
      isOkB (walletC.sign_order_data getAddrC ecdsaC hashFnC
        (.domain ⟨none, none, none, none, none⟩) (.msg msgC)) = true :=
  C4_domain_checked_late getAddrC ecdsaC hashFnC walletC "0x01" "0x01" msgC
    rfl rfl rfl

/-- Claim C9: the constructor stores a caller-supplied public key
verbatim, while `sign_order_data` compares it against the
checksum-normalized trader address; so when the supplied key is a
differently-cased rendering of the same account as the order's trader,
`sign_order_data` fails with the signer-mismatch error. -/
theorem C9_verbatim_key_case_mismatch (getAddr privToAddr : String → String)
    (ecdsa : String → String → RawSig) (hashFn : HashFn) (pub pk : String)
    (ru rt : Option String) (w : Wallet) (domainArg : DomainArg)
    (m : MessageToSign)
    (hinit : Wallet.init getAddr privToAddr (some pub) (some pk) ru rt = .ok w)
    (hsame : lowerHex pub = lowerHex (getAddr m.trader))
    (hdiff : pub ≠ getAddr m.trader) :
    w.public_key = some pub ∧
      w.sign_order_data getAddr ecdsa hashFn domainArg (.msg m) =
        .error (.valueError "Signer wallet address mismatch") := by
  have hw : w = ⟨some pk, some pub, ru, rt, some pk⟩ := (Except.ok.inj hinit).symm
  subst hw
  refine ⟨rfl, ?_⟩
  have hmm : (Wallet.mk (some pk) (some pub) ru rt (some pk)).public_key ≠
      some (getAddr m.trader) := by
    intro hc
    exact hdiff (Option.some.inj hc)
  unfold Wallet.sign_order_data
  simp only [Option.isNone_some, Bool.false_eq_true, if_false, ne_eq, hmm,
    not_false_iff, if_true]

theorem C9_witness :
    lowerHex "0xab12" = lowerHex (getAddrCk "0xab12") ∧
      "0xab12" ≠ getAddrCk "0xab12" ∧
      (Wallet.mk (some "0x01") (some "0xab12") none none
          (some "0x01")).public_key = some "0xab12" ∧
      (Wallet.mk (some "0x01") (some "0xab12") none none
          (some "0x01")).sign_order_data getAddrCk ecdsaC hashFnC
          (.domain domainC) (.msg ⟨7, "0xab12", "0xTOK", 250, 3⟩) =
        .error (.valueError "Signer wallet address mismatch") :=
  ⟨by decide, by decide,
    C9_verbatim_key_case_mismatch getAddrCk privToAddrC ecdsaC hashFnC
      "0xab12" "0x01" none none _ (.domain domainC)
      ⟨7, "0xab12", "0xTOK", 250, 3⟩ rfl (by decide) (by decide)⟩

end OpynWallet
